import Mathlib

/-!
Shallow embedding of the session/authentication subsystem of the repository
(app/services/auth_service.py, app/utils/jwt_utils.py, app/models/user.py),
together with theorems settling the frozen claims about it.

Conventions:
- machine time is a natural number of seconds (the POSIX clock); every
  time-dependent operation takes the current time as an explicit argument;
- the external collaborators (the pyjwt token codec, the redis session store,
  the passlib password hasher, the SQLAlchemy user table) are modelled by
  executable Lean definitions whose doc comments name the behaviour of the
  library call they stand for;
- fallible store calls return Except; a raised exception is an error value.
-/

deriving instance DecidableEq for Except

namespace FlaskAuth

/-! ## Token payloads (the claim set of a JWT issued by jwt_utils.py) -/

/-- Claims embedded in every token this application issues
(jwt_utils.generate_access_token / generate_refresh_token):
user_id, username, role, type, iat, exp.  iat and exp are numeric
POSIX timestamps in seconds. -/
structure Payload where
  user_id : Nat
  username : String
  role : String
  type : String
  iat : Nat
  exp : Nat
deriving DecidableEq, Repr

/-- JWT_ACCESS_TOKEN_EXPIRE_MINUTES default from jwt_utils.py. -/
def JWT_ACCESS_TOKEN_EXPIRE_MINUTES : Nat := 30

/-- JWT_REFRESH_TOKEN_EXPIRE_DAYS default from jwt_utils.py. -/
def JWT_REFRESH_TOKEN_EXPIRE_DAYS : Nat := 7

/-- SESSION_TTL default (1800 seconds) from auth_service.py. -/
def SESSION_TTL : Nat := 1800

/-- A token string presented to the service: either a token correctly signed
with the server secret (carrying a payload), or a string that is malformed,
unsigned, or whose signature does not verify. -/
inductive Token where
  | signed (p : Payload)
  | malformed (s : String)
deriving DecidableEq, Repr

/-- Base64url encoding of the fixed JWT header produced by the external pyjwt
library for algorithm HS256: the JSON object with typ JWT and alg HS256.
Because jwt_utils.py fixes JWT_ALGORITHM to HS256, this first segment is
identical for every token the application issues. -/
def jwtHeaderB64 : String := "eyJ0eXAiOiJKV1QiLCJhbGciOiJIUzI1NiJ9"

/-- Stand-in for the base64url encoding of the JSON claim set of a payload
(the second wire segment); an explicit injective rendering of the fields. -/
def encodeClaims (p : Payload) : String :=
  toString p.user_id ++ "_" ++ p.username ++ "_" ++ p.role ++ "_" ++ p.type
    ++ "_" ++ toString p.iat ++ "_" ++ toString p.exp

/-- The wire form of a token: three dot-separated segments
header.payload.signature.  The header segment is the constant
jwtHeaderB64 for every signed token (fixed algorithm HS256). -/
def tokenStr : Token → String
  | .signed p => jwtHeaderB64 ++ "." ++ encodeClaims p ++ "." ++ "sig"
  | .malformed s => s

/-- Python s[:16] on a string: its first 16 code points.
auth_service.py uses token[:16] as the token prefix for session and
blacklist keys. -/
def take16 (s : String) : String := String.mk (s.data.take 16)

/-! ## The external pyjwt decode and the repository wrapper decode_token -/

/-- The two failure classes raised by the external pyjwt jwt.decode:
ExpiredSignatureError for a token whose exp claim has passed, and
InvalidTokenError for malformed, unsigned, or signature-tampered input
(ExpiredSignatureError is the one subclass decode_token catches first). -/
inductive JwtError where
  | expiredSignature
  | invalidToken
deriving DecidableEq, Repr

/-- The external pyjwt jwt.decode with the server secret and algorithm HS256:
verifies the signature, then the exp claim against the current time.
A correctly signed token whose expiry has passed raises
ExpiredSignatureError; anything not correctly signed raises
InvalidTokenError. -/
def jwtDecode (now : Nat) : Token → Except JwtError Payload
  | .signed p => if p.exp ≤ now then .error .expiredSignature else .ok p
  | .malformed _ => .error .invalidToken

/-- jwt_utils.decode_token: calls jwt.decode and catches both
ExpiredSignatureError and InvalidTokenError, returning None for either
(each branch only logs a different warning). -/
def decode_token (now : Nat) (token : Token) : Option Payload :=
  match jwtDecode now token with
  | .ok p => some p
  | .error .expiredSignature => none
  | .error .invalidToken => none

/-- jwt_utils.generate_access_token: payload with type access,
iat now, exp now plus JWT_ACCESS_TOKEN_EXPIRE_MINUTES minutes. -/
def generate_access_token (now : Nat) (user_id : Nat) (username role : String) : Token :=
  .signed { user_id := user_id, username := username, role := role,
            type := "access", iat := now,
            exp := now + JWT_ACCESS_TOKEN_EXPIRE_MINUTES * 60 }

/-- jwt_utils.generate_refresh_token: payload with type refresh,
iat now, exp now plus JWT_REFRESH_TOKEN_EXPIRE_DAYS days. -/
def generate_refresh_token (now : Nat) (user_id : Nat) (username role : String) : Token :=
  .signed { user_id := user_id, username := username, role := role,
            type := "refresh", iat := now,
            exp := now + JWT_REFRESH_TOKEN_EXPIRE_DAYS * 86400 }

/-! ## The redis session store

auth_service.py keeps three kinds of keys in the store:
session:{user_id}:{token_prefix} (value: the user id as a string),
session_data:{user_id} (value: a serialized identity snapshot) and
blacklist:{token_prefix} (value: the sentinel "1").  These three f-string
formats are prefix-unambiguous (the numeric user id segment is terminated by
a colon), so the store keys are modelled structurally. -/
inductive RKey where
  | session (user_id : Nat) (tpfx : String)
  | sessionData (user_id : Nat)
  | blacklist (tpfx : String)
deriving DecidableEq, Repr

/-- The redis connection for session storage.  down models an unreachable
store: every call on such a connection raises (redis raises
ConnectionError on use; the client constructor itself never connects and
so never raises).  kv is the key-value content; TTLs only cause passive
expiry, which no claim depends on, so they are not modelled. -/
structure Redis where
  down : Bool
  kv : List (RKey × String)
deriving DecidableEq, Repr

/-- redis SETEX key ttl value: store the value under the key (replacing any
previous value); raises when the store is unreachable. -/
def Redis.setex (r : Redis) (k : RKey) (_ttl : Nat) (v : String) : Except Unit Redis :=
  if r.down then .error () else
    .ok { r with kv := (k, v) :: r.kv.filter (fun e => ! decide (e.1 = k)) }

/-- redis DEL key: remove every entry under the key; raises when the store is
unreachable. -/
def Redis.del (r : Redis) (k : RKey) : Except Unit Redis :=
  if r.down then .error () else
    .ok { r with kv := r.kv.filter (fun e => ! decide (e.1 = k)) }

/-- redis EXISTS key: whether the key is present; raises when the store is
unreachable. -/
def Redis.existsKey (r : Redis) (k : RKey) : Except Unit Bool :=
  if r.down then .error () else .ok (r.kv.any (fun e => decide (e.1 = k)))

/-- Whether a store key matches the glob pattern session:{uid}:* . -/
def RKey.isSessionOf (k : RKey) (uid : Nat) : Bool :=
  match k with
  | .session u _ => decide (u = uid)
  | _ => false

/-- The keys of a store content matching session:{uid}:* . -/
def sessionKeysOf (r : Redis) (uid : Nat) : List RKey :=
  (r.kv.map Prod.fst).filter (fun k => k.isSessionOf uid)

/-- redis KEYS session:{uid}:* — list the matching keys; raises when the
store is unreachable. -/
def Redis.keysSessionOf (r : Redis) (uid : Nat) : Except Unit (List RKey) :=
  if r.down then .error () else .ok (sessionKeysOf r uid)

/-- Whether a blacklist entry exists for the first 16 characters of a token
string (the pure content view used to state properties of verify_session). -/
def blacklistedB (r : Redis) (tok : String) : Bool :=
  r.kv.any (fun e => decide (e.1 = RKey.blacklist (take16 tok)))

/-! ## The user table (app/models/user.py) -/

/-- A row of the user table: id (primary key), username (unique),
email (unique), password_hash (nullable) and role.  A Python None in
password_hash is Option.none. -/
structure User where
  id : Nat
  username : String
  email : String
  password_hash : Option String
  role : String
deriving DecidableEq, Repr

/-- The user table contents at one instant. -/
abbrev UserTable := List User

/-- User.query.filter_by(username=...).first() . -/
def findByUsername (users : UserTable) (username : String) : Option User :=
  users.find? (fun u => decide (u.username = username))

/-- User.query.get(user_id) — primary-key lookup. -/
def findById (users : UserTable) (user_id : Nat) : Option User :=
  users.find? (fun u => decide (u.id = user_id))

/-- Whether the table already holds a row with the given username OR email
(the uniqueness condition of register_user, and the pair of unique column
constraints of the user table). -/
def hasConflict (users : UserTable) (username email : String) : Bool :=
  users.any (fun u => decide (u.username = username) || decide (u.email = email))

/-! ## The passlib password hasher

auth_service.py builds a passlib CryptContext with the single scheme bcrypt
and delegates hash_password / verify_password to it.  The library is
external to the repository; it is modelled here by its documented
behaviour: hashing produces a digest in bcrypt format (beginning with $2b$),
and CryptContext.verify first identifies which configured scheme produced
the digest — when no scheme recognizes it, it raises UnknownHashError
instead of returning False. -/

/-- Stand-in for a bcrypt digest of a password: a string in bcrypt format
(the per-call random salt is not modelled; no claim depends on it). -/
def hash_password (password : String) : String := "$2b$12$" ++ password

/-- Whether the bcrypt scheme of the CryptContext identifies a digest as one
of its own (bcrypt digests begin with the $2b$ prefix marker). -/
def bcryptIdentifies (digest : String) : Bool :=
  decide (digest.data.take 4 = "$2b$".data)

/-- The external passlib CryptContext.verify with schemes equal to the one
scheme bcrypt: raises UnknownHashError when no scheme identifies the
digest, otherwise compares the digest against the plaintext. -/
def pwd_context_verify (plain digest : String) : Except String Bool :=
  if bcryptIdentifies digest then .ok (decide (digest = hash_password plain))
  else .error "UnknownHashError: hash could not be identified"

/-- AuthService.verify_password: a direct delegation to
pwd_context.verify(plain_password, hashed_password), with no exception
handling of its own. -/
def verify_password (plain_password hashed_password : String) : Except String Bool :=
  pwd_context_verify plain_password hashed_password

/-! ## AuthService (app/services/auth_service.py)

Each operation that touches the database takes the relevant table contents
as an argument; each operation that touches redis takes the connection and
returns the connection state it leaves behind.  Response dictionaries are
modelled by per-operation response types carrying exactly the fields the
code puts in them. -/

/-- AuthService.register_user (its response dictionary): the 201 body is
message plus the fresh id, every failure body is an error message. -/
inductive RegResp where
  | ok (message : String) (id : Nat)
  | err (message : String)
deriving DecidableEq, Repr

/-- AuthService.register_user.  The uniqueness check reads the table as it
is at check time (usersAtCheck); db.session.commit inserts into the table
as it is at insert time (usersAtInsert) — the two differ exactly when a
concurrent insert lands between the two steps.  The unique constraints on
username and email make commit raise IntegrityError when the new row
conflicts with a row present at insert time; register_user catches it,
rolls back and maps it to 409.  nextId is the primary key the database
assigns on success.  Returns the response pair and the resulting table. -/
def register_user (usersAtCheck usersAtInsert : UserTable) (nextId : Nat)
    (username email password role : String) : (RegResp × Nat) × UserTable :=
  if ¬ (role = "user" ∨ role = "admin") then
    ((.err "Role must be either user or admin", 400), usersAtInsert)
  else if hasConflict usersAtCheck username email then
    ((.err "User with this username or email already exists", 409), usersAtInsert)
  else
    let new_user : User :=
      { id := nextId, username := username, email := email,
        password_hash := some (hash_password password), role := role }
    if hasConflict usersAtInsert username email then
      ((.err "User with this username or email already exists", 409), usersAtInsert)
    else
      ((.ok "User registered successfully" nextId, 201), usersAtInsert ++ [new_user])

/-- AuthService.authenticate_user: look the user up by username; fail closed
(None) when the user is absent, when the stored password_hash is falsy
(None or the empty string), or when verify_password returns False.  The
only uncaught exception channel is the delegated pwd_context.verify. -/
def authenticate_user (users : UserTable) (username password : String) :
    Except String (Option User) :=
  match findByUsername users username with
  | none => .ok none
  | some user =>
    match user.password_hash with
    | none => .ok none
    | some h =>
      if h = "" then .ok none
      else
        match verify_password password h with
        | .error e => .error e
        | .ok false => .ok none
        | .ok true => .ok (some user)

/-- AuthService.login_user (its response dictionary): the 200 body carries
both tokens, the bearer type, expires_in and the user snapshot. -/
inductive LoginResp where
  | ok (access_token refresh_token : Token) (expires_in : Nat) (user : User)
  | err (message : String)
deriving DecidableEq, Repr

/-- The str(session_data) value login_user stores under session_data:{id}. -/
def sessionDataStr (user : User) (access_token : Token) : String :=
  "user_id:" ++ toString user.id ++ ",username:" ++ user.username
    ++ ",role:" ++ user.role ++ ",token:" ++ tokenStr access_token

/-- AuthService.login_user: authenticate (propagating any hasher exception),
401 on failure; on success generate both tokens, then best-effort write
the session:{id}:{token_prefix} record and the session_data:{id} record
inside one try block — a raise from either write is logged and swallowed,
and the tokens are returned with 200 regardless. -/
def login_user (now : Nat) (users : UserTable) (r : Redis)
    (username password : String) : Except String ((LoginResp × Nat) × Redis) :=
  match authenticate_user users username password with
  | .error e => .error e
  | .ok none => .ok ((.err "Invalid username or password", 401), r)
  | .ok (some user) =>
    let access_token := generate_access_token now user.id user.username user.role
    let refresh_token := generate_refresh_token now user.id user.username user.role
    let session_key := RKey.session user.id (take16 (tokenStr access_token))
    let r1 :=
      match r.setex session_key SESSION_TTL (toString user.id) with
      | .error _ => r
      | .ok ra =>
        match ra.setex (.sessionData user.id) SESSION_TTL (sessionDataStr user access_token) with
        | .error _ => ra
        | .ok rb => rb
    .ok ((.ok access_token refresh_token SESSION_TTL user, 200), r1)

/-- Response type of logout_user: a message dictionary either way. -/
inductive SimpleResp where
  | ok (message : String)
  | err (message : String)
deriving DecidableEq, Repr

/-- The loop in logout_user deleting every key redis KEYS returned. -/
def delAll (r : Redis) (keys : List RKey) : Except Unit Redis :=
  match keys with
  | [] => .ok r
  | k :: ks =>
    match r.del k with
    | .error e => .error e
    | .ok r1 => delAll r1 ks

/-- AuthService.logout_user: inside one try block, list and delete every
session:{user_id}:* key, delete session_data:{user_id}, and write a
blacklist entry for the first 16 characters of the presented token; any
raise from a store call is caught and mapped to a 500 failure response. -/
def logout_user (r : Redis) (token : String) (user_id : Nat) :
    (SimpleResp × Nat) × Redis :=
  match r.keysSessionOf user_id with
  | .error _ => ((.err "Failed to logout", 500), r)
  | .ok keys =>
    match delAll r keys with
    | .error _ => ((.err "Failed to logout", 500), r)
    | .ok r1 =>
      match r1.del (.sessionData user_id) with
      | .error _ => ((.err "Failed to logout", 500), r)
      | .ok r2 =>
        match r2.setex (.blacklist (take16 token)) SESSION_TTL "1" with
        | .error _ => ((.err "Failed to logout", 500), r)
        | .ok r3 => ((.ok "Logged out successfully", 200), r3)

/-- AuthService.verify_session: decode the token (None on any decode
failure); None unless the type claim is access; None when a blacklist
entry exists for the first 16 characters of the token; None when no
session:{user_id}:* key exists; otherwise the decoded payload.  The redis
calls sit outside any try block, so a store raise propagates to the
caller (the error branch of the Except). -/
def verify_session (now : Nat) (r : Redis) (token : Token) :
    Except Unit (Option Payload) :=
  match decode_token now token with
  | none => .ok none
  | some payload =>
    if ¬ (payload.type = "access") then .ok none
    else
      match r.existsKey (.blacklist (take16 (tokenStr token))) with
      | .error e => .error e
      | .ok true => .ok none
      | .ok false =>
        match r.keysSessionOf payload.user_id with
        | .error e => .error e
        | .ok session_keys =>
          if session_keys.isEmpty then .ok none else .ok (some payload)

/-- Response type of refresh_access_token: the 200 body carries the new
access token, the bearer type and expires_in. -/
inductive RefreshResp where
  | ok (access_token : Token) (expires_in : Nat)
  | err (message : String)
deriving DecidableEq, Repr

/-- AuthService.refresh_access_token: decode (401 on failure), 401 unless
the type claim is refresh, re-fetch the user by the embedded user_id
(404 when absent), then mint a new access token carrying the role from
the directory row and best-effort write a new session record for its
prefix — a store raise there is logged and swallowed.  Returns the
response pair and the resulting store. -/
def refresh_access_token (now : Nat) (users : UserTable) (r : Redis)
    (refresh_token : Token) : (RefreshResp × Nat) × Redis :=
  match decode_token now refresh_token with
  | none => ((.err "Invalid refresh token", 401), r)
  | some payload =>
    if ¬ (payload.type = "refresh") then ((.err "Invalid token type", 401), r)
    else
      match findById users payload.user_id with
      | none => ((.err "User not found", 404), r)
      | some user =>
        let access_token := generate_access_token now payload.user_id payload.username user.role
        let session_key := RKey.session payload.user_id (take16 (tokenStr access_token))
        let r1 :=
          match r.setex session_key SESSION_TTL (toString payload.user_id) with
          | .error _ => r
          | .ok ra => ra
        ((.ok access_token SESSION_TTL, 200), r1)

/-- The three failure causes of authenticate_user named by claim C8: no row
for the username; a row whose stored password_hash is falsy (None or the
empty string); a password the hasher rejects against the stored digest. -/
def authFails (users : UserTable) (username password : String) : Prop :=
  findByUsername users username = none ∨
  (∃ user : User, findByUsername users username = some user ∧
      (user.password_hash = none ∨ user.password_hash = some "")) ∨
  (∃ (user : User) (h : String), findByUsername users username = some user ∧
      user.password_hash = some h ∧ ¬ (h = "") ∧
      verify_password password h = Except.ok false)

/-! ## A concrete two-user scenario

Users A (alice, id 1) and B (bob, id 2), both registered with passwords,
both logged in at time 0; the stores below are exactly the store contents
the login and logout calls produce (checked by the evaluation theorem). -/

/-- User A of the two-user scenario. -/
def userA : User := User.mk 1 "alice" "a@x.com" (some (hash_password "pwa")) "user"

/-- User B of the two-user scenario. -/
def userB : User := User.mk 2 "bob" "b@x.com" (some (hash_password "pwb")) "user"

/-- The access token login issues to A at time 0. -/
def tokA : Token := generate_access_token 0 1 "alice" "user"

/-- The access token login issues to B at time 0. -/
def tokB : Token := generate_access_token 0 2 "bob" "user"

/-- Store content after A's login. -/
def storeA : Redis := Redis.mk false
  [(RKey.sessionData 1, sessionDataStr userA tokA),
   (RKey.session 1 (take16 (tokenStr tokA)), "1")]

/-- Store content after A's login and then B's login. -/
def storeAB : Redis := Redis.mk false
  [(RKey.sessionData 2, sessionDataStr userB tokB),
   (RKey.session 2 (take16 (tokenStr tokB)), "2"),
   (RKey.sessionData 1, sessionDataStr userA tokA),
   (RKey.session 1 (take16 (tokenStr tokA)), "1")]

/-- Store content after A then logs out with A's access token. -/
def storeL : Redis := Redis.mk false
  [(RKey.blacklist (take16 (tokenStr tokA)), "1"),
   (RKey.sessionData 2, sessionDataStr userB tokB),
   (RKey.session 2 (take16 (tokenStr tokB)), "2")]

/-! ## Theorems settling the claims -/

/-- Claim C2, as stated, is false at this pair of inputs: an expired
correctly-signed token and a tampered token make jwt.decode raise two
different errors, yet decode_token returns the very same None for both,
so a caller of decode_token cannot tell the two failure causes apart. -/
theorem c2_counterexample :
    decode_token 10 (Token.signed (Payload.mk 1 "alice" "user" "access" 0 5))
      = decode_token 10 (Token.malformed "garbage") ∧
    jwtDecode 10 (Token.signed (Payload.mk 1 "alice" "user" "access" 0 5))
      = Except.error JwtError.expiredSignature ∧
    jwtDecode 10 (Token.malformed "garbage") = Except.error JwtError.invalidToken :=
  ⟨rfl, rfl, rfl⟩

/-- Claim C2 (amended): the underlying jwt.decode distinguishes the causes —
decoding a correctly signed token after its expiry raises the
expiry-specific ExpiredSignatureError and malformed, unsigned or tampered
input raises the distinct InvalidTokenError — and decode_token catches the
two in separate handlers, but decode_token returns None in both cases, so
the distinction is not visible to its caller. -/
theorem c2_decode_collapses (now : Nat) :
    (∀ p : Payload, p.exp ≤ now →
        jwtDecode now (Token.signed p) = Except.error JwtError.expiredSignature) ∧
    (∀ s : String, jwtDecode now (Token.malformed s) = Except.error JwtError.invalidToken) ∧
    (∀ (t : Token) (e : JwtError), jwtDecode now t = Except.error e →
        decode_token now t = none) := by
  refine ⟨?_, ?_, ?_⟩
  · intro p hp
    simp [jwtDecode, hp]
  · intro s
    rfl
  · intro t e h
    cases e <;> simp [decode_token, h]

/-- Witness for c2_decode_collapses at concrete inputs. -/
theorem c2_decode_collapses_witness :
    jwtDecode 10 (Token.signed (Payload.mk 1 "alice" "user" "access" 0 5)) = Except.error JwtError.expiredSignature ∧
    decode_token 10 (Token.malformed "garbage") = none :=
  ⟨(c2_decode_collapses 10).1 _ (by decide),
   (c2_decode_collapses 10).2.2 _ JwtError.invalidToken
     ((c2_decode_collapses 10).2.1 "garbage")⟩

/-- Claim C10, as stated, is false at this input: for a digest no configured
scheme identifies, verify_password propagates the hash-identification
error of the external hasher instead of returning false. -/
theorem c10_counterexample :
    verify_password "password" "not-a-hash" ≠ Except.ok false ∧
    verify_password "password" "not-a-hash"
      = Except.error "UnknownHashError: hash could not be identified" :=
  ⟨by decide, rfl⟩

/-- Claim C10 (amended): verify_password returns a Boolean — false exactly on
mismatch — for every digest the configured bcrypt scheme identifies, but
for a digest no configured scheme identifies it propagates the
UnknownHashError of the external hasher rather than returning false. -/
theorem c10_verify_malformed (plain digest : String) :
    (bcryptIdentifies digest = true →
        verify_password plain digest = Except.ok (decide (digest = hash_password plain))) ∧
    (bcryptIdentifies digest = false →
        verify_password plain digest
          = Except.error "UnknownHashError: hash could not be identified") := by
  constructor <;> intro h <;> simp [verify_password, pwd_context_verify, h]

/-- Witness for c10_verify_malformed at concrete inputs. -/
theorem c10_verify_malformed_witness :
    verify_password "pw" (hash_password "other") = Except.ok false ∧
    verify_password "pw" "not-a-hash"
      = Except.error "UnknownHashError: hash could not be identified" := by
  refine ⟨?_, (c10_verify_malformed "pw" "not-a-hash").2 (by decide)⟩
  rw [(c10_verify_malformed "pw" (hash_password "other")).1 (by decide)]
  decide

/-- Claim C8: authenticate_user fails closed and uniformly — whichever of the
three causes (absent user, falsy stored hash, failed verification) makes a
run fail, the caller-visible result is the same returned None, with no
exception raised; two failing runs are indistinguishable to the caller. -/
theorem c8_authenticate_uniform
    (d1 : UserTable) (u1 p1 : String) (d2 : UserTable) (u2 p2 : String)
    (h1 : authFails d1 u1 p1) (h2 : authFails d2 u2 p2) :
    authenticate_user d1 u1 p1 = Except.ok none ∧
    authenticate_user d1 u1 p1 = authenticate_user d2 u2 p2 := by
  have key : ∀ (d : UserTable) (u p : String), authFails d u p →
      authenticate_user d u p = Except.ok none := by
    intro d u p hf
    rcases hf with hnone | ⟨user, hu, hph⟩ | ⟨user, h, hu, hph, hne, hv⟩
    · simp [authenticate_user, hnone]
    · rcases hph with h0 | h0 <;> simp [authenticate_user, hu, h0]
    · simp [authenticate_user, hu, hph, hne, hv]
  exact ⟨key d1 u1 p1 h1, by rw [key d1 u1 p1 h1, key d2 u2 p2 h2]⟩

/-- Witness for c8_authenticate_uniform: a run failing because the user is
absent and a run failing because the stored hash is unset return the same
None. -/
theorem c8_authenticate_uniform_witness :
    authenticate_user [] "alice" "pw" = Except.ok none ∧
    authenticate_user [User.mk 1 "alice" "a@x.com" none "user"] "alice" "pw" = Except.ok none ∧
    authenticate_user [] "alice" "pw"
      = authenticate_user [User.mk 1 "alice" "a@x.com" none "user"] "alice" "pw" := by
  have h := c8_authenticate_uniform [] "alice" "pw"
    [User.mk 1 "alice" "a@x.com" none "user"] "alice" "pw"
    (Or.inl (by decide))
    (Or.inr (Or.inl ⟨User.mk 1 "alice" "a@x.com" none "user", by decide, Or.inl rfl⟩))
  exact ⟨h.1, h.1 ▸ h.2 ▸ h.1, h.2⟩

/-- Claim C9: for a valid role, register_user answers 409 Conflict whenever a
row with the same username or email exists — whether the pre-insert
uniqueness query sees it or the conflict only surfaces as an insert-time
IntegrityError (the check/insert race) — and in the conflict case the
table is left exactly as it was (no new row is persisted). -/
theorem c9_register_conflict
    (usersAtCheck usersAtInsert : UserTable) (nextId : Nat)
    (username email password role : String)
    (hrole : role = "user" ∨ role = "admin")
    (hconf : hasConflict usersAtCheck username email = true ∨
             hasConflict usersAtInsert username email = true) :
    (register_user usersAtCheck usersAtInsert nextId username email password role).1
        = (RegResp.err "User with this username or email already exists", 409) ∧
    (register_user usersAtCheck usersAtInsert nextId username email password role).2
        = usersAtInsert := by
  have hro : (¬ (role = "user" ∨ role = "admin")) = False :=
    eq_false (not_not_intro hrole)
  by_cases hck : hasConflict usersAtCheck username email = true
  · constructor <;> simp [register_user, hro, hck]
  · have h2 : hasConflict usersAtInsert username email = true := hconf.resolve_left hck
    constructor <;> simp [register_user, hro, hck, h2]

/-- Witness for c9_register_conflict at the race: the pre-insert check sees
an empty table, yet the insert lands on a table already holding the same
username, and the result is 409 with no new row. -/
theorem c9_register_conflict_witness :
    (register_user [] [User.mk 1 "alice" "a@x.com" none "user"] 2
        "alice" "other@x.com" "secret1" "user").1
      = (RegResp.err "User with this username or email already exists", 409) ∧
    (register_user [] [User.mk 1 "alice" "a@x.com" none "user"] 2
        "alice" "other@x.com" "secret1" "user").2
      = [User.mk 1 "alice" "a@x.com" none "user"] :=
  c9_register_conflict [] _ 2 "alice" "other@x.com" "secret1" "user"
    (Or.inl rfl) (Or.inr (by decide))

/-- Claim C6: for an unexpired refresh token whose embedded user still exists,
the new access token minted by refresh embeds the role currently stored in
the user directory row at refresh time (user.role) — not the role claim
carried inside the presented refresh token. -/
theorem c6_refresh_uses_directory_role
    (now : Nat) (users : UserTable) (r : Redis) (p : Payload) (user : User)
    (hexp : now < p.exp) (htype : p.type = "refresh")
    (huser : findById users p.user_id = some user) :
    (refresh_access_token now users r (Token.signed p)).1 =
      (RefreshResp.ok (Token.signed
          (Payload.mk p.user_id p.username user.role "access" now
            (now + JWT_ACCESS_TOKEN_EXPIRE_MINUTES * 60))) SESSION_TTL, 200) := by
  have hnl : ¬ (p.exp ≤ now) := by omega
  have hd : decode_token now (Token.signed p) = some p := by
    simp [decode_token, jwtDecode, hnl]
  simp [refresh_access_token, hd, htype, huser, generate_access_token]

/-- Witness for c6_refresh_uses_directory_role: the refresh token still
carries role user, the directory row now says admin, and the refreshed
access token carries admin. -/
theorem c6_refresh_uses_directory_role_witness :
    (refresh_access_token 100 [User.mk 1 "alice" "a@x.com" none "admin"]
        (Redis.mk false []) (Token.signed (Payload.mk 1 "alice" "user" "refresh" 0 604800))).1 =
      (RefreshResp.ok (Token.signed
          (Payload.mk 1 "alice" "admin" "access" 100
            (100 + JWT_ACCESS_TOKEN_EXPIRE_MINUTES * 60))) SESSION_TTL, 200) :=
  c6_refresh_uses_directory_role 100 [User.mk 1 "alice" "a@x.com" none "admin"]
    (Redis.mk false []) (Payload.mk 1 "alice" "user" "refresh" 0 604800)
    (User.mk 1 "alice" "a@x.com" none "admin") (by decide) rfl (by decide)

/-- Claim C7: the rejection ladder of refresh_access_token — 401 when the
token fails to decode; 401 when its type claim is not refresh (an
access-type token is never treated as a refresh token); 404 when the
embedded user no longer exists in the directory; 200 with a new access
token when all three checks pass. -/
theorem c7_refresh_ladder (now : Nat) (users : UserTable) (r : Redis) (t : Token) :
    (decode_token now t = none →
      (refresh_access_token now users r t).1 = (RefreshResp.err "Invalid refresh token", 401)) ∧
    (∀ p : Payload, decode_token now t = some p → ¬ (p.type = "refresh") →
      (refresh_access_token now users r t).1 = (RefreshResp.err "Invalid token type", 401)) ∧
    (∀ p : Payload, decode_token now t = some p → p.type = "refresh" →
      findById users p.user_id = none →
      (refresh_access_token now users r t).1 = (RefreshResp.err "User not found", 404)) ∧
    (∀ (p : Payload) (user : User), decode_token now t = some p → p.type = "refresh" →
      findById users p.user_id = some user →
      (refresh_access_token now users r t).1 =
        (RefreshResp.ok (generate_access_token now p.user_id p.username user.role)
          SESSION_TTL, 200)) := by
  refine ⟨?_, ?_, ?_, ?_⟩
  · intro h
    simp [refresh_access_token, h]
  · intro p hd hty
    simp [refresh_access_token, hd, hty]
  · intro p hd hty hn
    simp [refresh_access_token, hd, hty, hn]
  · intro p user hd hty hu
    simp [refresh_access_token, hd, hty, hu]

/-- Witness for c7_refresh_ladder: one concrete input per rung of the
ladder, including an access-type token answered with 401. -/
theorem c7_refresh_ladder_witness :
    (refresh_access_token 0 [] (Redis.mk false []) (Token.malformed "zz")).1
      = (RefreshResp.err "Invalid refresh token", 401) ∧
    (refresh_access_token 0 [] (Redis.mk false [])
        (generate_access_token 0 1 "alice" "user")).1
      = (RefreshResp.err "Invalid token type", 401) ∧
    (refresh_access_token 0 [] (Redis.mk false [])
        (generate_refresh_token 0 1 "alice" "user")).1
      = (RefreshResp.err "User not found", 404) ∧
    (refresh_access_token 0 [User.mk 1 "alice" "a@x.com" none "user"] (Redis.mk false [])
        (generate_refresh_token 0 1 "alice" "user")).1
      = (RefreshResp.ok (generate_access_token 0 1 "alice" "user") SESSION_TTL, 200) :=
  ⟨(c7_refresh_ladder 0 [] (Redis.mk false []) (Token.malformed "zz")).1 rfl,
   (c7_refresh_ladder 0 [] (Redis.mk false []) (generate_access_token 0 1 "alice" "user")).2.1
     _ rfl (by decide),
   (c7_refresh_ladder 0 [] (Redis.mk false []) (generate_refresh_token 0 1 "alice" "user")).2.2.1
     _ rfl rfl rfl,
   (c7_refresh_ladder 0 [User.mk 1 "alice" "a@x.com" none "user"] (Redis.mk false [])
       (generate_refresh_token 0 1 "alice" "user")).2.2.2
     _ (User.mk 1 "alice" "a@x.com" none "user") rfl rfl (by decide)⟩

/-- Claim C3: store-failure handling is asymmetric — when the session store
is unreachable (every store write raises), login_user still returns both
tokens with 200 and the failure is swallowed, while logout_user returns a
failure body with 500. -/
theorem c3_store_failure_asymmetry
    (now : Nat) (users : UserTable) (r : Redis)
    (username password : String) (user : User) (token : String) (uid : Nat)
    (hdown : r.down = true)
    (hauth : authenticate_user users username password = Except.ok (some user)) :
    login_user now users r username password =
      Except.ok ((LoginResp.ok (generate_access_token now user.id user.username user.role)
          (generate_refresh_token now user.id user.username user.role)
          SESSION_TTL user, 200), r) ∧
    logout_user r token uid = ((SimpleResp.err "Failed to logout", 500), r) := by
  constructor
  · simp [login_user, hauth, Redis.setex, hdown]
  · simp [logout_user, Redis.keysSessionOf, hdown]

/-- Witness for c3_store_failure_asymmetry on a concrete unreachable store,
with a user whose credentials authenticate. -/
theorem c3_store_failure_asymmetry_witness :
    login_user 7 [User.mk 1 "alice" "a@x.com" (some (hash_password "pwa")) "user"]
        (Redis.mk true []) "alice" "pwa" =
      Except.ok ((LoginResp.ok (generate_access_token 7 1 "alice" "user")
          (generate_refresh_token 7 1 "alice" "user") SESSION_TTL
          (User.mk 1 "alice" "a@x.com" (some (hash_password "pwa")) "user"), 200),
        Redis.mk true []) ∧
    logout_user (Redis.mk true []) "sometoken" 1
      = ((SimpleResp.err "Failed to logout", 500), Redis.mk true []) :=
  c3_store_failure_asymmetry 7
    [User.mk 1 "alice" "a@x.com" (some (hash_password "pwa")) "user"]
    (Redis.mk true []) "alice" "pwa"
    (User.mk 1 "alice" "a@x.com" (some (hash_password "pwa")) "user")
    "sometoken" 1 rfl (by decide)

/-- Over a reachable store, verify_session computes the decoded payload when
the type claim is access, no blacklist entry covers the first 16
characters of the token and some session key of the embedded user exists,
and None in every other case. -/
theorem verify_session_up (now : Nat) (r : Redis) (t : Token) (hup : r.down = false) :
    verify_session now r t = Except.ok
      ((decode_token now t).bind (fun payload =>
        if payload.type = "access" ∧ blacklistedB r (tokenStr t) = false ∧
            ¬ (sessionKeysOf r payload.user_id = []) then some payload else none)) := by
  unfold verify_session
  cases hd : decode_token now t with
  | none => rfl
  | some payload =>
    dsimp only
    by_cases hty : payload.type = "access"
    · rw [if_neg (not_not_intro hty)]
      have hbl : r.existsKey (RKey.blacklist (take16 (tokenStr t)))
          = Except.ok (blacklistedB r (tokenStr t)) := by
        simp [Redis.existsKey, hup, blacklistedB]
      have hk : r.keysSessionOf payload.user_id
          = Except.ok (sessionKeysOf r payload.user_id) := by
        simp [Redis.keysSessionOf, hup]
      rw [hbl, hk]
      cases hb : blacklistedB r (tokenStr t) with
      | true => simp [hty, hb]
      | false =>
        cases hsk : sessionKeysOf r payload.user_id with
        | nil => simp [hty, hb, hsk]
        | cons a l => simp [hty, hb, hsk]
    · rw [if_pos hty]
      simp [hty]

/-- Claim C1: over a reachable store, verify_session returns the decoded
identity claims exactly when the token decodes, its type claim is access,
no blacklist entry exists for the first 16 characters of the token, and at
least one session key of the embedded user_id exists; in every other case
it returns None. -/
theorem c1_verify_session_iff (now : Nat) (r : Redis) (t : Token) (hup : r.down = false) :
    (∀ p : Payload,
      verify_session now r t = Except.ok (some p) ↔
        (decode_token now t = some p ∧ p.type = "access" ∧
         blacklistedB r (tokenStr t) = false ∧ ¬ (sessionKeysOf r p.user_id = []))) ∧
    ((¬ ∃ p : Payload, decode_token now t = some p ∧ p.type = "access" ∧
         blacklistedB r (tokenStr t) = false ∧ ¬ (sessionKeysOf r p.user_id = [])) →
      verify_session now r t = Except.ok none) := by
  rw [verify_session_up now r t hup]
  constructor
  · intro p
    constructor
    · intro h
      cases hd : decode_token now t with
      | none =>
        rw [hd] at h
        simp at h
      | some q =>
        rw [hd] at h
        by_cases hc : q.type = "access" ∧ blacklistedB r (tokenStr t) = false ∧
            ¬ (sessionKeysOf r q.user_id = [])
        · simp only [Option.some_bind, if_pos hc, Except.ok.injEq, Option.some.injEq] at h
          subst h
          exact ⟨rfl, hc.1, hc.2.1, hc.2.2⟩
        · simp only [Option.some_bind, if_neg hc] at h
          simp at h
    · rintro ⟨hd, hty, hbl, hsk⟩
      rw [hd]
      simp [hty, hbl, hsk]
  · intro hne
    cases hd : decode_token now t with
    | none => simp
    | some q =>
      have hc : ¬ (q.type = "access" ∧ blacklistedB r (tokenStr t) = false ∧
          ¬ (sessionKeysOf r q.user_id = [])) := by
        intro hc
        exact hne ⟨q, hd, hc.1, hc.2.1, hc.2.2⟩
      simp [hc]

/-- Witness for c1_verify_session_iff: a fresh unexpired access token over a
store holding one session key of its user and no blacklist entry. -/
theorem c1_verify_session_iff_witness :
    verify_session 1 (Redis.mk false [(RKey.session 1 "x", "1")])
        (generate_access_token 0 1 "alice" "user") =
      Except.ok (some (Payload.mk 1 "alice" "user" "access" 0
        (0 + JWT_ACCESS_TOKEN_EXPIRE_MINUTES * 60))) :=
  ((c1_verify_session_iff 1 (Redis.mk false [(RKey.session 1 "x", "1")])
      (generate_access_token 0 1 "alice" "user") rfl).1 _).mpr
    ⟨by decide, rfl, by decide, by decide⟩

/-- Over a reachable store, the deletion loop of logout_user succeeds and
removes exactly the entries whose key is in the listed set. -/
theorem delAll_result (keys : List RKey) (r : Redis) (hup : r.down = false) :
    delAll r keys = Except.ok
      (Redis.mk false (r.kv.filter (fun e => ! decide (e.1 ∈ keys)))) := by
  induction keys generalizing r with
  | nil =>
    obtain ⟨d, kv⟩ := r
    simp only at hup
    subst hup
    simp [delAll]
  | cons k ks ih =>
    have hdel : r.del k = Except.ok (Redis.mk false (r.kv.filter (fun e => ! decide (e.1 = k)))) := by
      obtain ⟨d, kv⟩ := r
      simp only at hup
      subst hup
      simp [Redis.del]
    rw [delAll, hdel]
    dsimp only
    rw [ih _ rfl]
    congr 2
    rw [List.filter_filter]
    refine List.filter_congr ?_
    intro e _
    by_cases h1 : e.1 = k <;> by_cases h2 : e.1 ∈ ks <;>
      simp [h1, h2, List.mem_cons]

/-- Over a reachable store, logout_user answers 200 and leaves exactly the
prior content minus every session:{uid}:* entry and the session_data:{uid}
entry, plus a blacklist entry for the first 16 characters of the presented
token. -/
theorem logout_user_ok (r : Redis) (token : String) (uid : Nat) (hup : r.down = false) :
    logout_user r token uid =
      ((SimpleResp.ok "Logged out successfully", 200),
        Redis.mk false
          ((RKey.blacklist (take16 token), "1") ::
            (((r.kv.filter (fun e => ! decide (e.1 ∈ sessionKeysOf r uid))).filter
                (fun e => ! decide (e.1 = RKey.sessionData uid))).filter
              (fun e => ! decide (e.1 = RKey.blacklist (take16 token)))))) := by
  have hkeys : r.keysSessionOf uid = Except.ok (sessionKeysOf r uid) := by
    simp [Redis.keysSessionOf, hup]
  rw [logout_user, hkeys]
  dsimp only
  rw [delAll_result _ _ hup]
  simp [Redis.del, Redis.setex]

/-- After a successful logout of uid, no session:{uid}:* key remains. -/
theorem logout_clears_sessions (r : Redis) (token : String) (uid : Nat)
    (hup : r.down = false) :
    sessionKeysOf (logout_user r token uid).2 uid = [] := by
  rw [logout_user_ok r token uid hup]
  dsimp only [sessionKeysOf]
  rw [List.filter_eq_nil_iff]
  intro a ha
  rw [List.mem_map] at ha
  obtain ⟨e, he, rfl⟩ := ha
  rw [List.mem_cons] at he
  rcases he with he | he
  · subst he
    simp [RKey.isSessionOf]
  · simp only [List.mem_filter] at he
    obtain ⟨⟨⟨hmem, h0⟩, -⟩, -⟩ := he
    intro habs
    have h0s : (∀ x : String, (e.1, x) ∉ r.kv) ∨ e.1.isSessionOf uid = false := by
      simpa using h0
    rcases h0s with hno | hff
    · exact hno e.2 hmem
    · rw [habs] at hff
      exact Bool.noConfusion hff

/-- The response part of refresh_access_token does not depend on the session
store at all: no blacklist lookup and no session lookup takes part in the
decision. -/
theorem refresh_resp_indep (now : Nat) (users : UserTable) (t : Token) (r r' : Redis) :
    (refresh_access_token now users r t).1 = (refresh_access_token now users r' t).1 := by
  unfold refresh_access_token
  cases decode_token now t with
  | none => rfl
  | some payload =>
    dsimp only
    by_cases hty : payload.type = "refresh"
    · rw [if_neg (not_not_intro hty), if_neg (not_not_intro hty)]
      cases findById users payload.user_id <;> rfl
    · rw [if_pos hty, if_pos hty]

/-- Claim C4: refresh_access_token accepts a token on decode, type refresh
and the user existing alone — no blacklist check and no session-record
check — so after a logout of the same user (which emptied the user's
session keys and wrote a blacklist entry for the presented access token),
an unexpired refresh token still yields a new access token with 200 and a
fresh session record is written; moreover the response of refresh is the
same over any two store states. -/
theorem c4_refresh_unaffected_by_logout
    (now : Nat) (users : UserTable) (r : Redis)
    (p : Payload) (user : User) (outTok : String)
    (hup : r.down = false) (hexp : now < p.exp) (htype : p.type = "refresh")
    (huser : findById users p.user_id = some user) :
    (logout_user r outTok p.user_id).1 = (SimpleResp.ok "Logged out successfully", 200) ∧
    sessionKeysOf (logout_user r outTok p.user_id).2 p.user_id = [] ∧
    RKey.blacklist (take16 outTok) ∈ ((logout_user r outTok p.user_id).2).kv.map Prod.fst ∧
    (refresh_access_token now users (logout_user r outTok p.user_id).2 (Token.signed p)).1 =
      (RefreshResp.ok (generate_access_token now p.user_id p.username user.role)
        SESSION_TTL, 200) ∧
    (RKey.session p.user_id (take16 (tokenStr (generate_access_token now p.user_id
          p.username user.role))), toString p.user_id) ∈
      (refresh_access_token now users (logout_user r outTok p.user_id).2
        (Token.signed p)).2.kv ∧
    (∀ r' r'' : Redis, (refresh_access_token now users r' (Token.signed p)).1 =
      (refresh_access_token now users r'' (Token.signed p)).1) := by
  have hnl : ¬ (p.exp ≤ now) := by omega
  have hd : decode_token now (Token.signed p) = some p := by
    simp [decode_token, jwtDecode, hnl]
  have hL := logout_user_ok r outTok p.user_id hup
  refine ⟨by rw [hL], logout_clears_sessions r outTok p.user_id hup, ?_, ?_, ?_, ?_⟩
  · rw [hL]
    simp
  · simp [refresh_access_token, hd, htype, huser]
  · rw [hL]
    simp [refresh_access_token, hd, htype, huser, Redis.setex]
  · intro r' r''
    exact refresh_resp_indep now users (Token.signed p) r' r''

/-- Witness for c4_refresh_unaffected_by_logout: one user, logged-in store
content, logout with the access token, then refresh with the still-valid
refresh token. -/
theorem c4_refresh_unaffected_by_logout_witness :
    (logout_user (Redis.mk false
        [(RKey.sessionData 1, "snap"),
         (RKey.session 1 (take16 (tokenStr (generate_access_token 0 1 "alice" "user"))), "1")])
      (tokenStr (generate_access_token 0 1 "alice" "user")) 1).1
        = (SimpleResp.ok "Logged out successfully", 200) ∧
    (refresh_access_token 5 [User.mk 1 "alice" "a@x.com" none "user"]
        (logout_user (Redis.mk false
          [(RKey.sessionData 1, "snap"),
           (RKey.session 1 (take16 (tokenStr (generate_access_token 0 1 "alice" "user"))), "1")])
          (tokenStr (generate_access_token 0 1 "alice" "user")) 1).2
        (Token.signed (Payload.mk 1 "alice" "user" "refresh" 0 604800))).1 =
      (RefreshResp.ok (generate_access_token 5 1 "alice" "user") SESSION_TTL, 200) := by
  have h := c4_refresh_unaffected_by_logout 5 [User.mk 1 "alice" "a@x.com" none "user"]
    (Redis.mk false
      [(RKey.sessionData 1, "snap"),
       (RKey.session 1 (take16 (tokenStr (generate_access_token 0 1 "alice" "user"))), "1")])
    (Payload.mk 1 "alice" "user" "refresh" 0 604800)
    (User.mk 1 "alice" "a@x.com" none "user")
    (tokenStr (generate_access_token 0 1 "alice" "user"))
    rfl (by decide) rfl (by decide)
  exact ⟨h.1, h.2.2.2.1⟩

/-- Claim C5 fails on the code: every token the application signs begins
with the same 16 characters (the base64url of the constant HS256 header),
so the blacklist entry logout writes for the presented token's prefix
covers every token of every user.  In the two-user scenario: both users
log in, B's token verifies, then A logs out — and B's unexpired token
with B's session records intact is now rejected by verify_session. -/
theorem c5_logout_rejects_other_user :
    (∀ p : Payload, take16 (tokenStr (Token.signed p)) = "eyJ0eXAiOiJKV1Qi") ∧
    login_user 0 [userA, userB] (Redis.mk false []) "alice" "pwa"
      = Except.ok ((LoginResp.ok tokA (generate_refresh_token 0 1 "alice" "user")
          SESSION_TTL userA, 200), storeA) ∧
    login_user 0 [userA, userB] storeA "bob" "pwb"
      = Except.ok ((LoginResp.ok tokB (generate_refresh_token 0 2 "bob" "user")
          SESSION_TTL userB, 200), storeAB) ∧
    verify_session 1 storeAB tokB
      = Except.ok (some (Payload.mk 2 "bob" "user" "access" 0 1800)) ∧
    logout_user storeAB (tokenStr tokA) 1
      = ((SimpleResp.ok "Logged out successfully", 200), storeL) ∧
    ¬ (sessionKeysOf storeL 2 = []) ∧
    verify_session 1 storeL tokB = Except.ok none :=
  ⟨fun _ => rfl, rfl, rfl, rfl, rfl, by decide, rfl⟩

end FlaskAuth
